import Mathlib

/-!
Verification of the delegation-ledger and tool layer of the
intent-agent-model repository.

The definitions below are a shallow embedding of the Python source:
  * `src/supreme-commander-agent/app/tools.py` (delegate_to_agent,
    coordinate_with_peer_agent, send_slack_notification, create_task_plan,
    track_goal_progress),
  * `src/app/a2a_tools.py` (coordinate_with_peer_iam1, response processing),
  * `src/slack-webhook/main.py` (slack_events, the deduplication cache).
Firestore is modelled as association lists keyed by `Nat` document ids with a
monotone id allocator; the `datetime.now(UTC)` call is a `now : Nat` parameter;
a raised exception from the underlying store is an `exn : Option String`
parameter (`some msg` models an exception with message `msg`, handled by the
`except` branch of the source).
-/

/-- Task lifecycle status, from the `status` field written by
`delegate_to_agent` ("assigned") and the lifecycle in the data model. -/
inductive TaskStatus where
  | assigned
  | in_progress
  | completed
  | failed
deriving DecidableEq

/-- Task priority, from the `Literal["critical", "high", "medium", "low"]`
annotation of `delegate_to_agent`. -/
inductive Priority where
  | critical
  | high
  | medium
  | low
deriving DecidableEq

/-- A document of the `tasks` collection, mirroring the `task_data` dict
built in `delegate_to_agent` (tools.py lines 64-71). -/
structure TaskData where
  agent_id : String
  task_description : String
  priority : Priority
  status : TaskStatus
  created_at : Nat
  created_by : String
deriving DecidableEq

/-- An element of a plan's `tasks` list; `track_goal_progress` reads only
`t.get('status')`, which may be absent (`Option`). -/
structure PlanTask where
  status : Option TaskStatus
deriving DecidableEq

/-- A document of the `task_plans` collection, mirroring the `plan_data` dict
built in `create_task_plan` (tools.py lines 249-256). -/
structure PlanData where
  objective : String
  context : String
  status : String
  created_at : Nat
  created_by : String
  tasks : List PlanTask
deriving DecidableEq

/-- A document of the `coordination_requests` collection, mirroring the
`coord_data` dict built in `coordinate_with_peer_agent` (tools.py 117-123). -/
structure CoordData where
  peer_agent_id : String
  request : String
  status : String
  created_at : Nat
  requester : String
deriving DecidableEq

/-- The Firestore collections used by tools.py, with the document-id
allocator modelled as a counter (`document()` returns a fresh id). -/
structure FirestoreState where
  tasks : List (Nat × TaskData)
  task_plans : List (Nat × PlanData)
  coordination_requests : List (Nat × CoordData)
  nextId : Nat
deriving DecidableEq

/-- Firestore `collection.document(k).get()`: first binding of key `k`. -/
def lookupDoc {α : Type} (k : Nat) : List (Nat × α) → Option α
  | [] => none
  | q :: l => if q.1 = k then some q.2 else lookupDoc k l

/-- Firestore `document(k).set(v)` on an existing document: overwrite. -/
def setDoc {α : Type} (k : Nat) (v : α) : List (Nat × α) → List (Nat × α)
  | [] => []
  | q :: l => if q.1 = k then (k, v) :: setDoc k v l else q :: setDoc k v l

/-- All allocated document ids are below the allocator counter. -/
def wfState (st : FirestoreState) : Bool :=
  st.tasks.all (fun q => q.1 < st.nextId) &&
  st.task_plans.all (fun q => q.1 < st.nextId) &&
  st.coordination_requests.all (fun q => q.1 < st.nextId)

/-- Result of a creating tool call: the success message carrying the new
document id, or the `except`-branch error message. -/
inductive CreateResult where
  | ok (doc_id : Nat)
  | err (detail : String)
deriving DecidableEq

/-- `delegate_to_agent` (tools.py lines 42-93): stores a new task document
with status `assigned`, timestamp `now`, `created_by` supreme_commander, and
returns its id; on a store exception returns the formatted error and writes
nothing. -/
def delegate_to_agent (st : FirestoreState) (agent_id task_description : String)
    (priority : Priority) (now : Nat) (exn : Option String) :
    CreateResult × FirestoreState :=
  match exn with
  | some msg => (.err ("❌ Failed to delegate task: " ++ msg), st)
  | none =>
    let task_data : TaskData :=
      { agent_id := agent_id
        task_description := task_description
        priority := priority
        status := .assigned
        created_at := now
        created_by := "supreme_commander" }
    (.ok st.nextId,
      { st with tasks := (st.nextId, task_data) :: st.tasks
                nextId := st.nextId + 1 })

/-- `coordinate_with_peer_agent` (tools.py lines 96-139): stores a new
coordination request with status `pending`; on a store exception returns the
formatted error and writes nothing. -/
def coordinate_with_peer_agent (st : FirestoreState) (peer_agent_id request : String)
    (now : Nat) (exn : Option String) : CreateResult × FirestoreState :=
  match exn with
  | some msg => (.err ("❌ Coordination failed: " ++ msg), st)
  | none =>
    let coord_data : CoordData :=
      { peer_agent_id := peer_agent_id
        request := request
        status := "pending"
        created_at := now
        requester := "supreme_commander" }
    (.ok st.nextId,
      { st with coordination_requests := (st.nextId, coord_data) :: st.coordination_requests
                nextId := st.nextId + 1 })

/-- `create_task_plan` (tools.py lines 230-271): stores a new plan document
with status `draft` and an empty `tasks` list; on a store exception returns
the formatted error and writes nothing. -/
def create_task_plan (st : FirestoreState) (objective context : String)
    (now : Nat) (exn : Option String) : CreateResult × FirestoreState :=
  match exn with
  | some msg => (.err ("❌ Failed to create plan: " ++ msg), st)
  | none =>
    let plan_data : PlanData :=
      { objective := objective
        context := context
        status := "draft"
        created_at := now
        created_by := "supreme_commander"
        tasks := [] }
    (.ok st.nextId,
      { st with task_plans := (st.nextId, plan_data) :: st.task_plans
                nextId := st.nextId + 1 })

/-- The value returned by `track_goal_progress` (tools.py lines 274-321):
the task-status report, the plan-status report with the completed/total
counts, the not-found message, or the `except`-branch error message. -/
inductive ProgressReport where
  | taskReport (goal_id : Nat) (agent_id : String) (description : String)
      (status : TaskStatus) (priority : Priority) (created_at : Nat)
  | planReport (goal_id : Nat) (objective : String)
      (completed : Nat) (total : Nat) (status : String) (created_at : Nat)
  | notFound (goal_id : Nat)
  | trackError (detail : String)
deriving DecidableEq

/-- `track_goal_progress` (tools.py lines 274-321): checks the `tasks`
collection first, then `task_plans`; for a plan the progress counts are
`len([t for t in tasks if t.get('status') == 'completed'])` over `len(tasks)`;
an id in neither collection yields the not-found message. -/
def track_goal_progress (st : FirestoreState) (goal_id : Nat)
    (exn : Option String) : ProgressReport :=
  match exn with
  | some msg => .trackError ("❌ Failed to track: " ++ msg)
  | none =>
    match lookupDoc goal_id st.tasks with
    | some data =>
        .taskReport goal_id data.agent_id data.task_description
          data.status data.priority data.created_at
    | none =>
      match lookupDoc goal_id st.task_plans with
      | some data =>
          let tasks := data.tasks
          let completed :=
            (tasks.filter (fun t => t.status = some TaskStatus.completed)).length
          let total := tasks.length
          .planReport goal_id data.objective completed total
            data.status data.created_at
      | none => .notFound goal_id

/-- Error kinds of the ledger design (spec §7); the repository source reports
them as formatted strings, the structured kinds are made explicit here. -/
inductive LedgerError where
  | persistenceError (detail : String)
  | notFoundError
  | invalidTransitionError
deriving DecidableEq

/-- Modelled from the spec: the forward transitions of the task lifecycle
(§3 invariant, §8 "starting from assigned, only in_progress, completed, or
failed are reachable next; from completed or failed, no transition
succeeds"); `advance_task_status` itself is absent from the repository
source. -/
def legalTransition : TaskStatus → TaskStatus → Bool
  | .assigned, .in_progress => true
  | .assigned, .completed => true
  | .assigned, .failed => true
  | .in_progress, .completed => true
  | .in_progress, .failed => true
  | _, _ => false

/-- Position of a status along the forward lifecycle path: the two terminal
states share the final position. -/
def statusRank : TaskStatus → Nat
  | .assigned => 0
  | .in_progress => 1
  | .completed => 2
  | .failed => 2

/-- Modelled from the spec: `advance_task_status` (§4.1) is not implemented
in the repository source (tools.py only ever writes status `assigned`); per
the spec it validates the forward transition centrally, updates status in
place on success, and on `InvalidTransitionError`, `NotFoundError` or a
store failure (`PersistenceError`) leaves the state unchanged. -/
def advance_task_status (st : FirestoreState) (task_id : Nat)
    (new_status : TaskStatus) (exn : Option String) :
    Except LedgerError Unit × FirestoreState :=
  match exn with
  | some msg => (.error (.persistenceError msg), st)
  | none =>
    match lookupDoc task_id st.tasks with
    | none => (.error .notFoundError, st)
    | some t =>
      if legalTransition t.status new_status then
        (.ok (),
          { st with tasks := setDoc task_id { t with status := new_status } st.tasks })
      else (.error .invalidTransitionError, st)

/-- Priority levels of `send_slack_notification`
(`Literal["info", "warning", "critical"]`). -/
inductive NotifyPriority where
  | info
  | warning
  | critical
deriving DecidableEq

/-- The `emoji_map` lookup of `send_slack_notification`
(tools.py lines 164-170). -/
def emoji_map : NotifyPriority → String
  | .info => "ℹ️"
  | .warning => "⚠️"
  | .critical => "🚨"

/-- The message-formatting part of `send_slack_notification`
(tools.py lines 162-179): the emoji prefix, then for `critical` the
channel-wide broadcast mention prepended by the caller before the text is
handed to `chat_postMessage`. -/
def format_message (priority : NotifyPriority) (message : String) : String :=
  let formatted := emoji_map priority ++ " " ++ message
  if priority = .critical then "<!channel> " ++ formatted else formatted

/-- One `part` of an A2A artifact (a2a_tools.py lines 112-115): only parts
with `type == "text"` contribute their text. -/
structure A2APart where
  type : String
  text : String
deriving DecidableEq

/-- One artifact of a completed A2A task. -/
structure A2AArtifact where
  parts : List A2APart
deriving DecidableEq

/-- The remote task object returned by `client.tasks.wait_until_complete`:
its status string, artifacts, id, and the optional `error` attribute read by
`getattr(task, "error", "Unknown error")`. -/
structure A2ATask where
  status : String
  artifacts : List A2AArtifact
  error : Option String
  id : String
deriving DecidableEq

/-- Python `str.strip()`: remove leading and trailing whitespace. -/
def strip (s : String) : String :=
  String.mk
    (((s.data.dropWhile Char.isWhitespace).reverse.dropWhile Char.isWhitespace).reverse)

/-- The response-text extraction loop of `coordinate_with_peer_iam1`
(a2a_tools.py lines 111-115): concatenate `part.text + "\n"` over every
text part of every artifact. -/
def extract_response_text (artifacts : List A2AArtifact) : String :=
  artifacts.foldl
    (fun acc a =>
      a.parts.foldl
        (fun acc2 p => if p.type = "text" then acc2 ++ p.text ++ "\n" else acc2)
        acc)
    ""

/-- The four distinct return shapes of the status dispatch of
`coordinate_with_peer_iam1` (a2a_tools.py lines 109-158): the boxed peer
response, the empty-response error, the failed-task error, and the timeout
message. -/
inductive CoordOutcome where
  | completedResponse (text : String)
  | emptyResponse
  | failedError (reason : String)
  | timedOut (status : String) (task_id : String)
deriving DecidableEq

/-- The response processing of `coordinate_with_peer_iam1` on the remote
task returned by the A2A client (a2a_tools.py lines 109-158): `completed`
with non-blank extracted text returns that text, `completed` with blank text
returns the empty-response error, `failed` returns the task error (default
"Unknown error"), and any other status returns the timeout message. -/
def process_task_response (task : A2ATask) : CoordOutcome :=
  if task.status = "completed" then
    let response_text := extract_response_text task.artifacts
    if strip response_text = "" then .emptyResponse
    else .completedResponse (strip response_text)
  else if task.status = "failed" then
    .failedError (task.error.getD "Unknown error")
  else .timedOut task.status task.id

/-- The fields of `payload.get("event", {})` read by `slack_events`
(slack-webhook/main.py); absent keys are `none`. -/
structure SlackEvent where
  type : Option String
  bot_id : Option String
  user : Option String
  text : Option String
  channel : Option String
deriving DecidableEq

/-- The empty dict that `payload.get("event", {})` defaults to. -/
def emptyEvent : SlackEvent :=
  { type := none, bot_id := none, user := none, text := none, channel := none }

/-- The fields of the webhook request body read by `slack_events`. -/
structure SlackPayload where
  type : Option String
  challenge : Option String
  event : Option SlackEvent
  event_id : Option String
deriving DecidableEq

/-- Python truthiness of an optional string: present and non-empty. -/
def truthy : Option String → Bool
  | none => false
  | some s => s ≠ ""

/-- The two response bodies `slack_events` returns: the url-verification
challenge echo and the acknowledgement. -/
inductive HttpBody where
  | challenge (c : Option String)
  | ok
deriving DecidableEq

/-- The observable result of one `slack_events` call: the HTTP response, the
deduplication cache afterwards, and whether a background processing thread
was started. -/
structure SlackResult where
  body : HttpBody
  code : Nat
  cache : List String
  started : Bool
deriving DecidableEq

/-- `slack_events` (slack-webhook/main.py lines 90-141) over the
process-wide `_slack_event_cache` (modelled as the list of cached event
ids): url-verification echo, then deduplication (return early on a cached
non-empty event_id, otherwise insert it), then the bot / event-type /
empty-text-or-channel guards, and finally the background thread start. -/
def slack_events (payload : SlackPayload) (cache : List String) : SlackResult :=
  if payload.type = some "url_verification" then
    { body := .challenge payload.challenge, code := 200, cache := cache, started := false }
  else
    let event := payload.event.getD emptyEvent
    let event_type := event.type
    let event_id := payload.event_id.getD ""
    if event_id ≠ "" ∧ event_id ∈ cache then
      { body := .ok, code := 200, cache := cache, started := false }
    else
      let cache1 := if event_id ≠ "" then event_id :: cache else cache
      if truthy event.bot_id ∨ event.user = some "USLACKBOT" then
        { body := .ok, code := 200, cache := cache1, started := false }
      else if ¬ (event_type = some "message" ∨ event_type = some "app_mention") then
        { body := .ok, code := 200, cache := cache1, started := false }
      else
        let text := event.text.getD ""
        let channel := event.channel
        if text = "" ∨ ¬ truthy channel then
          { body := .ok, code := 200, cache := cache1, started := false }
        else
          { body := .ok, code := 200, cache := cache1, started := true }

/-- Number of calls in a request sequence that start a background processing
thread for the given event id, threading the deduplication cache through the
sequence. -/
def started_count (e : String) : List SlackPayload → List String → Nat
  | [], _ => 0
  | p :: ps, cache =>
    let r := slack_events p cache
    (if r.started = true ∧ p.event_id.getD "" = e then 1 else 0) +
      started_count e ps r.cache

/-! ## Helper lemmas -/

theorem lookupDoc_setDoc_self {α : Type} (k : Nat) (v : α) :
    ∀ (l : List (Nat × α)) (t : α), lookupDoc k l = some t →
      lookupDoc k (setDoc k v l) = some v := by
  intro l
  induction l with
  | nil => intro t h; simp [lookupDoc] at h
  | cons q l ih =>
    intro t h
    by_cases hk : q.1 = k
    · simp [setDoc, hk, lookupDoc]
    · simp only [lookupDoc, if_neg hk] at h
      simp only [setDoc, if_neg hk, lookupDoc, if_neg hk]
      exact ih t h

theorem all_lt_lookupDoc_none {α : Type} (n : Nat) :
    ∀ l : List (Nat × α), l.all (fun q => q.1 < n) = true → lookupDoc n l = none := by
  intro l
  induction l with
  | nil => intro _; rfl
  | cons q l ih =>
    intro h
    simp only [List.all_cons, Bool.and_eq_true, decide_eq_true_eq] at h
    have hne : q.1 ≠ n := Nat.ne_of_lt h.1
    simp only [lookupDoc, if_neg hne]
    exact ih (by simpa [List.all_eq_true] using h.2)

theorem all_lt_succ {α : Type} (n : Nat) (l : List (Nat × α))
    (h : l.all (fun q => q.1 < n) = true) :
    l.all (fun q => q.1 < n + 1) = true := by
  simp only [List.all_eq_true, decide_eq_true_eq] at *
  exact fun q hq => Nat.lt_succ_of_lt (h q hq)

theorem advance_task_status_ok (st : FirestoreState) (task_id : Nat)
    (ns : TaskStatus) (t : TaskData)
    (h : lookupDoc task_id st.tasks = some t)
    (hleg : legalTransition t.status ns = true) :
    advance_task_status st task_id ns none =
      (.ok (), { st with tasks := setDoc task_id { t with status := ns } st.tasks }) := by
  simp [advance_task_status, h, hleg]

theorem advance_task_status_illegal (st : FirestoreState) (task_id : Nat)
    (ns : TaskStatus) (t : TaskData)
    (h : lookupDoc task_id st.tasks = some t)
    (hleg : legalTransition t.status ns = false) :
    advance_task_status st task_id ns none =
      (.error .invalidTransitionError, st) := by
  simp [advance_task_status, h, hleg]

/-! ## Claims -/

/-- Claim C7: for a `critical` notification the caller prepends the
channel-wide broadcast mention to the outgoing text before handing it to the
channel, and for `info` or `warning` the text is exactly the emoji-prefixed
message with no broadcast flag added. -/
theorem critical_broadcast_flagged (message : String) :
    format_message .critical message = "<!channel> " ++ ("🚨 " ++ message) ∧
    format_message .info message = "ℹ️ " ++ message ∧
    format_message .warning message = "⚠️ " ++ message :=
  ⟨rfl, rfl, rfl⟩

/-- Claim C5: for every embedded ledger operation, an underlying-store
failure is surfaced to the caller as a structured error result carrying the
operation's error kind and the exception detail, and the operation leaves the
whole state unchanged (all-or-nothing mutation). -/
theorem store_failure_surfaced_no_effect (st : FirestoreState)
    (a d o c pa rq : String) (p : Priority) (now goal_id task_id : Nat)
    (ns : TaskStatus) (msg : String) :
    delegate_to_agent st a d p now (some msg) =
      (.err ("❌ Failed to delegate task: " ++ msg), st) ∧
    create_task_plan st o c now (some msg) =
      (.err ("❌ Failed to create plan: " ++ msg), st) ∧
    coordinate_with_peer_agent st pa rq now (some msg) =
      (.err ("❌ Coordination failed: " ++ msg), st) ∧
    track_goal_progress st goal_id (some msg) =
      .trackError ("❌ Failed to track: " ++ msg) ∧
    advance_task_status st task_id ns (some msg) =
      (.error (.persistenceError msg), st) :=
  ⟨rfl, rfl, rfl, rfl, rfl⟩

/-- Claim C2: for every plan, `get_progress` reports the pair
(completed_count, total_count) with completed_count the number of the plan's
tasks whose status is completed and total_count the number of its tasks; an
empty task sequence reports (0, 0) and raises no error. -/
theorem plan_progress_counts (st : FirestoreState) (goal_id : Nat)
    (plan : PlanData)
    (h1 : lookupDoc goal_id st.tasks = none)
    (h2 : lookupDoc goal_id st.task_plans = some plan) :
    track_goal_progress st goal_id none =
      .planReport goal_id plan.objective
        (plan.tasks.countP (fun t => t.status = some TaskStatus.completed))
        plan.tasks.length plan.status plan.created_at ∧
    (plan.tasks = [] →
      track_goal_progress st goal_id none =
        .planReport goal_id plan.objective 0 0 plan.status plan.created_at) := by
  have hmain : track_goal_progress st goal_id none =
      .planReport goal_id plan.objective
        ((plan.tasks.filter (fun t => t.status = some TaskStatus.completed)).length)
        plan.tasks.length plan.status plan.created_at := by
    simp [track_goal_progress, h1, h2]
  constructor
  · rw [hmain, List.countP_eq_length_filter]
  · intro he
    rw [hmain, he]
    rfl

/-- Concrete plan for the C2 witness: three tasks, two completed. -/
def planC2 : PlanData :=
  { objective := "Deploy auth system", context := "", status := "draft",
    created_at := 5, created_by := "supreme_commander",
    tasks := [⟨some .completed⟩, ⟨some .failed⟩, ⟨some .completed⟩] }

/-- Concrete state for the C2 witness. -/
def stC2 : FirestoreState :=
  { tasks := [], task_plans := [(0, planC2)],
    coordination_requests := [], nextId := 1 }

theorem plan_progress_counts_witness :
    track_goal_progress stC2 0 none =
      .planReport 0 "Deploy auth system" 2 3 "draft" 5 :=
  (plan_progress_counts stC2 0 planC2 rfl rfl).1.trans (by decide)

/-- Claim C4: `get_progress` on an id matching neither a stored task nor a
stored plan reports the explicit not-found failure, which is distinct from
any zero-progress plan report. -/
theorem unknown_id_not_found (st : FirestoreState) (goal_id : Nat)
    (h1 : lookupDoc goal_id st.tasks = none)
    (h2 : lookupDoc goal_id st.task_plans = none) :
    track_goal_progress st goal_id none = .notFound goal_id ∧
    (∀ (o s : String) (c : Nat),
      track_goal_progress st goal_id none ≠
        .planReport goal_id o 0 0 s c) := by
  have hmain : track_goal_progress st goal_id none = .notFound goal_id := by
    simp [track_goal_progress, h1, h2]
  exact ⟨hmain, fun o s c => by rw [hmain]; intro hcon; exact ProgressReport.noConfusion hcon⟩

/-- Concrete empty state for the C4 witness. -/
def stC4 : FirestoreState :=
  { tasks := [], task_plans := [], coordination_requests := [], nextId := 0 }

theorem unknown_id_not_found_witness :
    track_goal_progress stC4 42 none = .notFound 42 :=
  (unknown_id_not_found stC4 42 rfl rfl).1

/-- Claim C10: an id present in both the task store and the plan store is
reported as the task record (the task lookup takes precedence), never as the
plan report. -/
theorem task_precedence_over_plan (st : FirestoreState) (goal_id : Nat)
    (t : TaskData) (p : PlanData)
    (h1 : lookupDoc goal_id st.tasks = some t)
    (h2 : lookupDoc goal_id st.task_plans = some p) :
    track_goal_progress st goal_id none =
      .taskReport goal_id t.agent_id t.task_description
        t.status t.priority t.created_at ∧
    (∀ (o s : String) (comp tot c : Nat),
      track_goal_progress st goal_id none ≠
        .planReport goal_id o comp tot s c) := by
  have hmain : track_goal_progress st goal_id none =
      .taskReport goal_id t.agent_id t.task_description
        t.status t.priority t.created_at := by
    simp [track_goal_progress, h1]
  exact ⟨hmain, fun o s comp tot c => by
    rw [hmain]; intro hcon; exact ProgressReport.noConfusion hcon⟩

/-- Concrete task record for the C10 witness. -/
def taskC10 : TaskData :=
  { agent_id := "data_analyst_agent", task_description := "Summarize Q3",
    priority := .medium, status := .in_progress, created_at := 7,
    created_by := "supreme_commander" }

/-- Concrete state for the C10 witness: id 0 lives in both collections. -/
def stC10 : FirestoreState :=
  { tasks := [(0, taskC10)], task_plans := [(0, planC2)],
    coordination_requests := [], nextId := 1 }

theorem task_precedence_over_plan_witness :
    track_goal_progress stC10 0 none =
      .taskReport 0 "data_analyst_agent" "Summarize Q3" .in_progress .medium 7 :=
  (task_precedence_over_plan stC10 0 taskC10 planC2 rfl rfl).1

/-- Claim C3: for valid non-empty inputs, `create_task` returns the fresh
allocator id — not previously issued in any collection — and stores a task
with status `assigned`, the current UTC timestamp, and the delegating
orchestrator as `created_by`; an immediate `get_progress` on that id reports
status `assigned`; well-formedness of the id allocation is preserved. -/
theorem create_task_fresh_assigned (st : FirestoreState)
    (a d : String) (p : Priority) (now : Nat)
    (ha : a ≠ "") (hd : d ≠ "") (hwf : wfState st = true) :
    (delegate_to_agent st a d p now none).1 = .ok st.nextId ∧
    lookupDoc st.nextId st.tasks = none ∧
    lookupDoc st.nextId st.task_plans = none ∧
    lookupDoc st.nextId st.coordination_requests = none ∧
    lookupDoc st.nextId (delegate_to_agent st a d p now none).2.tasks =
      some { agent_id := a, task_description := d, priority := p,
             status := .assigned, created_at := now,
             created_by := "supreme_commander" } ∧
    track_goal_progress (delegate_to_agent st a d p now none).2 st.nextId none =
      .taskReport st.nextId a d .assigned p now ∧
    wfState (delegate_to_agent st a d p now none).2 = true := by
  have h3 := hwf
  simp only [wfState, Bool.and_eq_true] at h3
  obtain ⟨⟨ht, hp⟩, hc⟩ := h3
  refine ⟨rfl, all_lt_lookupDoc_none _ _ ht, all_lt_lookupDoc_none _ _ hp,
    all_lt_lookupDoc_none _ _ hc, ?_, ?_, ?_⟩
  · simp [delegate_to_agent, lookupDoc]
  · simp [delegate_to_agent, track_goal_progress, lookupDoc]
  · simp only [delegate_to_agent, wfState, List.all_cons, Bool.and_eq_true,
      decide_eq_true_eq]
    exact ⟨⟨⟨Nat.lt_succ_self _, all_lt_succ _ _ ht⟩, all_lt_succ _ _ hp⟩,
      all_lt_succ _ _ hc⟩

/-- Concrete empty state for the C3 witness. -/
def stC3 : FirestoreState :=
  { tasks := [], task_plans := [], coordination_requests := [], nextId := 0 }

theorem create_task_fresh_assigned_witness :
    (delegate_to_agent stC3 "engineering_agent_1" "Ship the report"
        .high 1700000000 none).1 = .ok 0 ∧
    track_goal_progress
        (delegate_to_agent stC3 "engineering_agent_1" "Ship the report"
          .high 1700000000 none).2 0 none =
      .taskReport 0 "engineering_agent_1" "Ship the report" .assigned .high
        1700000000 := by
  have h := create_task_fresh_assigned stC3 "engineering_agent_1"
    "Ship the report" .high 1700000000 (by decide) (by decide) (by decide)
  exact ⟨h.1, h.2.2.2.2.2.1⟩

/-- Claim C1: `advance_task_status` enforces the forward lifecycle
centrally: a requested transition off the forward path fails with
`InvalidTransitionError` and leaves the state unchanged; a successful
advance strictly increases the lifecycle rank; no transition leaves the
terminal states `completed` or `failed`; and legality coincides with strict
forward movement along the path. -/
theorem advance_forward_only (st : FirestoreState) (task_id : Nat)
    (ns : TaskStatus) (t : TaskData)
    (h : lookupDoc task_id st.tasks = some t) :
    (legalTransition t.status ns = false →
      advance_task_status st task_id ns none =
        (.error .invalidTransitionError, st)) ∧
    ((advance_task_status st task_id ns none).1 = .ok () →
      statusRank t.status < statusRank ns) ∧
    ((t.status = .completed ∨ t.status = .failed) →
      advance_task_status st task_id ns none =
        (.error .invalidTransitionError, st)) ∧
    (∀ s s' : TaskStatus, legalTransition s s' = true ↔ statusRank s < statusRank s') := by
  have hiff : ∀ s s' : TaskStatus,
      legalTransition s s' = true ↔ statusRank s < statusRank s' := by
    intro s s'
    cases s <;> cases s' <;> decide
  refine ⟨?_, ?_, ?_, hiff⟩
  · intro hleg
    exact advance_task_status_illegal st task_id ns t h hleg
  · intro hok
    by_cases hleg : legalTransition t.status ns = true
    · exact (hiff t.status ns).1 hleg
    · rw [advance_task_status_illegal st task_id ns t h
        (Bool.eq_false_iff.mpr hleg)] at hok
      simp at hok
  · intro hterm
    have hleg : legalTransition t.status ns = false := by
      rcases hterm with h1 | h1 <;> rw [h1] <;> cases ns <;> rfl
    exact advance_task_status_illegal st task_id ns t h hleg

/-- Concrete task for the C1 witness: already completed. -/
def taskC1 : TaskData :=
  { agent_id := "a1"
    task_description := "done work"
    priority := .medium
    status := .completed
    created_at := 3
    created_by := "supreme_commander" }

/-- Concrete state for the C1 witness. -/
def stC1 : FirestoreState :=
  { tasks := [(0, taskC1)], task_plans := [],
    coordination_requests := [], nextId := 1 }

theorem advance_forward_only_witness :
    advance_task_status stC1 0 .assigned none =
      (.error .invalidTransitionError, stC1) :=
  (advance_forward_only stC1 0 .assigned taskC1 rfl).1 rfl

/-- Claim C8: with each mutation atomic, two transition calls moving the
same task from the same non-terminal prior state to the two different
terminal states cannot both succeed: in either interleaving order the first
call succeeds and the second fails with `InvalidTransitionError` having
observed the post-state. -/
theorem concurrent_terminal_exclusive (st : FirestoreState) (task_id : Nat)
    (t : TaskData) (h : lookupDoc task_id st.tasks = some t)
    (h2 : t.status = .assigned ∨ t.status = .in_progress) :
    ((advance_task_status st task_id .completed none).1 = .ok () ∧
      advance_task_status
          (advance_task_status st task_id .completed none).2 task_id .failed none =
        (.error .invalidTransitionError,
          (advance_task_status st task_id .completed none).2)) ∧
    ((advance_task_status st task_id .failed none).1 = .ok () ∧
      advance_task_status
          (advance_task_status st task_id .failed none).2 task_id .completed none =
        (.error .invalidTransitionError,
          (advance_task_status st task_id .failed none).2)) := by
  have hlc : legalTransition t.status .completed = true := by
    rcases h2 with h2 | h2 <;> rw [h2] <;> rfl
  have hlf : legalTransition t.status .failed = true := by
    rcases h2 with h2 | h2 <;> rw [h2] <;> rfl
  constructor
  · rw [advance_task_status_ok st task_id .completed t h hlc]
    exact ⟨rfl,
      advance_task_status_illegal _ task_id .failed { t with status := .completed }
        (lookupDoc_setDoc_self task_id _ st.tasks t h) rfl⟩
  · rw [advance_task_status_ok st task_id .failed t h hlf]
    exact ⟨rfl,
      advance_task_status_illegal _ task_id .completed { t with status := .failed }
        (lookupDoc_setDoc_self task_id _ st.tasks t h) rfl⟩

/-- Concrete task for the C8 witness: in progress. -/
def taskC8 : TaskData :=
  { agent_id := "a1"
    task_description := "w"
    priority := .low
    status := .in_progress
    created_at := 2
    created_by := "supreme_commander" }

/-- Concrete state for the C8 witness. -/
def stC8 : FirestoreState :=
  { tasks := [(0, taskC8)], task_plans := [],
    coordination_requests := [], nextId := 1 }

theorem concurrent_terminal_exclusive_witness :
    (advance_task_status stC8 0 .completed none).1 = .ok () ∧
    (advance_task_status (advance_task_status stC8 0 .completed none).2
        0 .failed none).1 = .error .invalidTransitionError := by
  have h := concurrent_terminal_exclusive stC8 0 taskC8 rfl (Or.inr rfl)
  exact ⟨h.1.1, by rw [h.1.2]⟩

/-- A remote task that completed but produced no artifacts. -/
def taskC6 : A2ATask :=
  { status := "completed", artifacts := [], error := none, id := "task-1" }

/-- Claim C6 counterexample: a remote task with status `completed` whose
artifacts carry no text is answered with the empty-response error, not with
the peer's text result. -/
theorem peer_completed_empty_counterexample :
    taskC6.status = "completed" ∧
    process_task_response taskC6 = CoordOutcome.emptyResponse :=
  ⟨rfl, by decide⟩

/-- Claim C6 (amended): the outcome branches of the peer-coordination send
are decided by the remote task's status — `completed` with non-blank
extracted text returns the peer's text, `completed` with blank text returns
a distinct empty-response error, `failed` returns the failure reason, and
any other status returns the timeout indication. -/
theorem peer_outcomes_by_status (task : A2ATask) :
    (task.status = "completed" →
      strip (extract_response_text task.artifacts) ≠ "" →
      process_task_response task =
        .completedResponse (strip (extract_response_text task.artifacts))) ∧
    (task.status = "completed" →
      strip (extract_response_text task.artifacts) = "" →
      process_task_response task = .emptyResponse) ∧
    (task.status = "failed" →
      process_task_response task = .failedError (task.error.getD "Unknown error")) ∧
    (task.status ≠ "completed" → task.status ≠ "failed" →
      process_task_response task = .timedOut task.status task.id) := by
  refine ⟨?_, ?_, ?_, ?_⟩
  · intro h1 h2
    simp [process_task_response, h1, h2]
  · intro h1 h2
    simp [process_task_response, h1, h2]
  · intro h1
    simp [process_task_response, h1]
  · intro h1 h2
    simp [process_task_response, h1, h2]

/-- A remote task that failed with an error attribute, for the C6 witness. -/
def taskC6w : A2ATask :=
  { status := "failed"
    artifacts := []
    error := some "peer unavailable"
    id := "task-2" }

theorem peer_outcomes_by_status_witness :
    process_task_response taskC6w = .failedError "peer unavailable" :=
  (peer_outcomes_by_status taskC6w).2.2.1 rfl

/-- A url-verification handshake request carrying an already-cached
event_id, for the C9 counterexample. -/
def payloadC9 : SlackPayload :=
  { type := some "url_verification"
    challenge := some "ch"
    event := none
    event_id := some "Ev1" }

/-- Claim C9 counterexample: a request whose event_id is already cached but
whose payload type is `url_verification` is answered with the challenge echo
before the deduplication check, not with the ok acknowledgement. -/
theorem dedup_url_verification_counterexample :
    payloadC9.event_id = some "Ev1" ∧
    "Ev1" ∈ ["Ev1"] ∧
    (slack_events payloadC9 ["Ev1"]).body ≠ HttpBody.ok ∧
    (slack_events payloadC9 ["Ev1"]).started = false := by
  refine ⟨rfl, List.mem_singleton.mpr rfl, ?_, rfl⟩
  intro hcon
  exact HttpBody.noConfusion hcon

theorem slack_events_cache_cases (p : SlackPayload) (cache : List String) :
    (slack_events p cache).cache = cache ∨
    (slack_events p cache).cache = (p.event_id.getD "") :: cache := by
  unfold slack_events
  by_cases h1 : p.type = some "url_verification"
  · rw [if_pos h1]
    exact Or.inl rfl
  · rw [if_neg h1]
    by_cases h2 : p.event_id.getD "" ≠ "" ∧ p.event_id.getD "" ∈ cache
    · rw [if_pos h2]
      exact Or.inl rfl
    · rw [if_neg h2]
      by_cases h3 : p.event_id.getD "" ≠ ""
      · rw [if_pos h3]
        by_cases h4 : truthy ((p.event.getD emptyEvent).bot_id) = true ∨
            (p.event.getD emptyEvent).user = some "USLACKBOT"
        · rw [if_pos h4]; exact Or.inr rfl
        · rw [if_neg h4]
          by_cases h5 : ¬((p.event.getD emptyEvent).type = some "message" ∨
              (p.event.getD emptyEvent).type = some "app_mention")
          · rw [if_pos h5]; exact Or.inr rfl
          · rw [if_neg h5]
            by_cases h6 : (p.event.getD emptyEvent).text.getD "" = "" ∨
                ¬ truthy (p.event.getD emptyEvent).channel = true
            · rw [if_pos h6]; exact Or.inr rfl
            · rw [if_neg h6]; exact Or.inr rfl
      · rw [if_neg h3]
        by_cases h4 : truthy ((p.event.getD emptyEvent).bot_id) = true ∨
            (p.event.getD emptyEvent).user = some "USLACKBOT"
        · rw [if_pos h4]; exact Or.inl rfl
        · rw [if_neg h4]
          by_cases h5 : ¬((p.event.getD emptyEvent).type = some "message" ∨
              (p.event.getD emptyEvent).type = some "app_mention")
          · rw [if_pos h5]; exact Or.inl rfl
          · rw [if_neg h5]
            by_cases h6 : (p.event.getD emptyEvent).text.getD "" = "" ∨
                ¬ truthy (p.event.getD emptyEvent).channel = true
            · rw [if_pos h6]; exact Or.inl rfl
            · rw [if_neg h6]; exact Or.inl rfl

theorem slack_events_mem_mono (p : SlackPayload) (cache : List String)
    (e : String) (hin : e ∈ cache) : e ∈ (slack_events p cache).cache := by
  rcases slack_events_cache_cases p cache with h | h <;> rw [h]
  · exact hin
  · exact List.mem_cons_of_mem _ hin

theorem slack_events_cached_not_started (p : SlackPayload) (cache : List String)
    (hne : p.event_id.getD "" ≠ "") (hin : p.event_id.getD "" ∈ cache) :
    (slack_events p cache).started = false := by
  unfold slack_events
  by_cases h1 : p.type = some "url_verification"
  · rw [if_pos h1]
  · rw [if_neg h1, if_pos ⟨hne, hin⟩]

theorem slack_events_started_mem (p : SlackPayload) (cache : List String)
    (hs : (slack_events p cache).started = true) (hne : p.event_id.getD "" ≠ "") :
    p.event_id.getD "" ∈ (slack_events p cache).cache := by
  unfold slack_events at *
  by_cases h1 : p.type = some "url_verification"
  · rw [if_pos h1] at hs
    exact absurd hs (by simp)
  · rw [if_neg h1] at hs ⊢
    by_cases h2 : p.event_id.getD "" ≠ "" ∧ p.event_id.getD "" ∈ cache
    · rw [if_pos h2] at hs
      exact absurd hs (by simp)
    · rw [if_neg h2] at hs ⊢
      rw [if_pos hne] at hs ⊢
      by_cases h4 : truthy ((p.event.getD emptyEvent).bot_id) = true ∨
          (p.event.getD emptyEvent).user = some "USLACKBOT"
      · rw [if_pos h4]
        exact List.mem_cons_self _ _
      · rw [if_neg h4]
        by_cases h5 : ¬((p.event.getD emptyEvent).type = some "message" ∨
            (p.event.getD emptyEvent).type = some "app_mention")
        · rw [if_pos h5]
          exact List.mem_cons_self _ _
        · rw [if_neg h5]
          by_cases h6 : (p.event.getD emptyEvent).text.getD "" = "" ∨
              ¬ truthy (p.event.getD emptyEvent).channel = true
          · rw [if_pos h6]
            exact List.mem_cons_self _ _
          · rw [if_neg h6]
            exact List.mem_cons_self _ _

theorem started_count_zero (e : String) (he : e ≠ "") :
    ∀ (ps : List SlackPayload) (cache : List String), e ∈ cache →
      started_count e ps cache = 0 := by
  intro ps
  induction ps with
  | nil => intro cache _; rfl
  | cons p ps ih =>
    intro cache hin
    have hmem : e ∈ (slack_events p cache).cache := slack_events_mem_mono p cache e hin
    by_cases heq : p.event_id.getD "" = e
    · have hs : (slack_events p cache).started = false :=
        slack_events_cached_not_started p cache (by rw [heq]; exact he)
          (by rw [heq]; exact hin)
      simp only [started_count, hs, ih _ hmem]
      simp
    · simp only [started_count, ih _ hmem]
      simp [heq]

theorem started_count_le_one_aux (e : String) (he : e ≠ "") :
    ∀ (ps : List SlackPayload) (cache : List String),
      started_count e ps cache ≤ 1 := by
  intro ps
  induction ps with
  | nil => intro cache; exact Nat.zero_le 1
  | cons p ps ih =>
    intro cache
    by_cases hs : (slack_events p cache).started = true ∧ p.event_id.getD "" = e
    · have hmem : e ∈ (slack_events p cache).cache := by
        rw [← hs.2]
        exact slack_events_started_mem p cache hs.1 (by rw [hs.2]; exact he)
      have hz := started_count_zero e he ps _ hmem
      simp only [started_count, if_pos hs, hz]
      omega
    · simp only [started_count, if_neg hs, Nat.zero_add]
      exact ih _

/-- Claim C9 (amended): for every inbound request other than the Slack
url-verification handshake whose (non-empty) event_id is already in the
deduplication cache, `slack_events` acknowledges with ok/200, starts no
background thread and leaves the cache unchanged; and because cache entries
are inserted on first sight and never removed, a given non-empty event_id
starts background processing at most once over any request sequence within
a process lifetime. -/
theorem dedup_at_most_once (payload : SlackPayload) (cache cache2 : List String)
    (e : String) (ps : List SlackPayload)
    (hnv : payload.type ≠ some "url_verification")
    (hid : payload.event_id.getD "" ≠ "")
    (hin : payload.event_id.getD "" ∈ cache)
    (he : e ≠ "") :
    slack_events payload cache =
      { body := .ok, code := 200, cache := cache, started := false } ∧
    started_count e ps cache2 ≤ 1 := by
  constructor
  · unfold slack_events
    rw [if_neg hnv, if_pos ⟨hid, hin⟩]
  · exact started_count_le_one_aux e he ps cache2

/-- A genuine user message event, for the C9 witness. -/
def eventC9w : SlackEvent :=
  { type := some "message"
    bot_id := none
    user := some "U1"
    text := some "hello"
    channel := some "C1" }

/-- A message request whose event_id is already cached, for the C9 witness. -/
def payloadC9w : SlackPayload :=
  { type := none
    challenge := none
    event := some eventC9w
    event_id := some "Ev2" }

theorem dedup_at_most_once_witness :
    slack_events payloadC9w ["Ev2"] =
      { body := .ok, code := 200, cache := ["Ev2"], started := false } ∧
    started_count "Ev2" [payloadC9w, payloadC9w] [] ≤ 1 :=
  dedup_at_most_once payloadC9w ["Ev2"] [] "Ev2" [payloadC9w, payloadC9w]
    (by decide) (by decide) (by decide) (by decide)
